import Mathlib

/-!
Verification of the agent-auth local secrets vault.

The core modules (Vault / SessionManager / AccessController / AgentIdentityRegistry)
are not shipped in this source tree; only the CLI front end (agent_auth/cli.py) and
two example integrations are.  Core operations are therefore modelled from the spec
(each such definition's doc comment says so), while the CLI dispatch logic and the
example code paths are embedded directly from the Python source.
-/

namespace AgentAuth

/-- A flat cookie mapping: string cookie names to string cookie values, the shape
handed across the vault boundary. -/
abbrev CookieMap := List (String × String)

/-- Modelled from the spec (section 4.1, KeyDerivation, absent from this tree): the
symmetric key derived from the master password and the stored salt.  The slow,
memory-hard, one-way aspects of the derivation are abstracted; the model keeps the
functional contract that derivation is deterministic in (password, salt) and that
the verifier check succeeds exactly for the original password. -/
structure Key where
  password : String
  salt : Nat
deriving DecidableEq

/-- Modelled from the spec (section 4.1): deterministic key derivation. -/
def deriveKey (password : String) (salt : Nat) : Key :=
  { password := password, salt := salt }

/-- Modelled from the spec (section 3, VaultMetadata): salt, verifier, and the
initialization flag.  The verifier field stands in for the one-way function of the
derived key used to confirm a password without persisting the key itself. -/
structure VaultMetadata where
  salt : Nat
  verifier : Key
  initializedFlag : Bool
deriving DecidableEq

/-- The error taxonomy of the spec (section 7), plus three modelling constructors:
vaultAlreadyInitialized (initializing an already-initialized vault, section 4.2),
vaultLocked (Vault.get_session called before unlock, as the examples could),
and invalidExpiry (SessionManager.store rejecting a non-future expiry, section 4.3). -/
inductive CoreError where
  | vaultNotInitialized
  | vaultAuthentication
  | vaultIntegrity
  | sessionNotFound
  | sessionExpired
  | agentNotFound
  | duplicateAgentName
  | agentScope
  | vaultAlreadyInitialized
  | vaultLocked
  | invalidExpiry
deriving DecidableEq

/-- Modelled from the spec (section 4.2): an authenticated-encryption ciphertext,
symbolically.  Decryption with the right key recovers the payload; decryption with
any other key fails authentication (VaultIntegrityError), never silently corrupts. -/
structure Ciphertext where
  encKey : Key
  nonce : Nat
  payload : CookieMap
deriving DecidableEq

/-- Modelled from the spec (section 4.2): authenticated encryption, symbolically. -/
def encrypt (k : Key) (nonce : Nat) (m : CookieMap) : Ciphertext :=
  { encKey := k, nonce := nonce, payload := m }

/-- Modelled from the spec (section 4.2): authenticated decryption; fails (none)
unless the key matches the encryption key. -/
def decrypt (k : Key) (c : Ciphertext) : Option CookieMap :=
  if c.encKey = k then some c.payload else none

/-- Modelled from the spec (section 3, SessionRecord): one record per domain. -/
structure SessionRecord where
  domain : String
  ciphertext : Ciphertext
  nonce : Nat
  createdAt : Nat
  expiresAt : Nat
deriving DecidableEq

/-- Modelled from the spec (sections 3 and 4.2): the persisted vault state —
optional metadata (none means not initialized) and the session-record table. -/
structure VaultState where
  meta : Option VaultMetadata
  records : List SessionRecord
deriving DecidableEq

/-- Modelled from the spec (section 3): domains are normalized to lowercase
(character-wise lowering, as Python str.lower does on domain names). -/
def normalizeDomain (d : String) : String := ⟨d.data.map Char.toLower⟩

/-- Modelled from the spec (section 4.2): true iff VaultMetadata exists. -/
def isInitialized (v : VaultState) : Bool := v.meta.isSome

/-- Look up the session record stored under a (normalized) domain. -/
def findRecord (domain : String) : List SessionRecord → Option SessionRecord
  | [] => none
  | r :: rest =>
    if r.domain = normalizeDomain domain then some r else findRecord domain rest

/-- Modelled from the spec (section 4.2): create the vault; fails if already
initialized; persists salt and verifier, does not retain the key. -/
def initVault (password : String) (salt : Nat) (v : VaultState) :
    Except CoreError VaultState :=
  if isInitialized v then .error .vaultAlreadyInitialized
  else .ok { meta := some { salt := salt
                            verifier := deriveKey password salt
                            initializedFlag := true }
             records := v.records }

/-- Events a core operation can perform against the vault, used to state which
operations an invocation did or did not attempt. -/
inductive Event where
  | scopeCheck
  | unlockAttempt
  | keyDerivation
  | fetchAttempt
  | decryptAttempt
  | auditWrite
deriving DecidableEq

/-- Modelled from the spec (sections 4.1 and 4.2): unlock re-derives the key from
the stored salt and compares the verifier; wrong password yields
VaultAuthenticationError, absent metadata yields VaultNotInitialized.  The event
list records that an unlock was attempted and whether key derivation ran. -/
def unlockEv (password : String) (v : VaultState) :
    Except CoreError Key × List Event :=
  match v.meta with
  | none => (.error .vaultNotInitialized, [.unlockAttempt])
  | some md =>
    let k := deriveKey password md.salt
    (if k = md.verifier then .ok k else .error .vaultAuthentication,
     [.unlockAttempt, .keyDerivation])

/-- Modelled from the spec (section 4.2): unlock, result only. -/
def unlock (password : String) (v : VaultState) : Except CoreError Key :=
  (unlockEv password v).1

/-- Modelled from the spec (section 4.2): put serializes, encrypts under the
handle's key with a fresh nonce, and upserts keyed by normalized domain
(last-write-wins replacement of any prior record for the domain). -/
def put (k : Key) (domain : String) (m : CookieMap)
    (nonce createdAt expiresAt : Nat) (v : VaultState) : VaultState :=
  let nd := normalizeDomain domain
  let r : SessionRecord :=
    { domain := nd, ciphertext := encrypt k nonce m, nonce := nonce
      createdAt := createdAt, expiresAt := expiresAt }
  { v with records := r :: v.records.filter (fun s => s.domain != nd) }

/-- Modelled from the spec (section 4.3): SessionManager.store rejects an
expires_at that is not strictly in the future relative to creation time
(equal-to-now is rejected), otherwise delegates to EncryptedStore.put. -/
def store (k : Key) (domain : String) (m : CookieMap)
    (nonce now expiresAt : Nat) (v : VaultState) : Except CoreError VaultState :=
  if expiresAt ≤ now then .error .invalidExpiry
  else .ok (put k domain m nonce now expiresAt v)

/-- Modelled from the spec (sections 4.2 and 4.3): fetch delegates to
EncryptedStore.get (NotFound if no record, IntegrityError if authentication of the
ciphertext fails) and then fails with SessionExpired when expires_at is at or
before the current read time.  The event list records the decryption attempts. -/
def fetchEv (k : Key) (domain : String) (now : Nat) (v : VaultState) :
    Except CoreError CookieMap × List Event :=
  match findRecord domain v.records with
  | none => (.error .sessionNotFound, [.fetchAttempt])
  | some r =>
    match decrypt k r.ciphertext with
    | none => (.error .vaultIntegrity, [.fetchAttempt, .decryptAttempt])
    | some m =>
      (if r.expiresAt ≤ now then .error .sessionExpired else .ok m,
       [.fetchAttempt, .decryptAttempt])

/-- Modelled from the spec (section 4.3): fetch, result only. -/
def fetch (k : Key) (domain : String) (now : Nat) (v : VaultState) :
    Except CoreError CookieMap :=
  (fetchEv k domain now v).1

/-- The metadata triple returned for each record by listing (spec section 4.2). -/
structure SessionMeta where
  domain : String
  createdAt : Nat
  expiresAt : Nat
deriving DecidableEq

/-- Modelled from the spec (section 4.2): list returns domain / created_at /
expires_at for all records without decrypting payloads; it takes no key. -/
def listSessions (v : VaultState) : List SessionMeta :=
  v.records.map (fun r =>
    { domain := r.domain, createdAt := r.createdAt, expiresAt := r.expiresAt })

/-- Replace every record's ciphertext by an arbitrary (possibly corrupted) blob,
leaving all metadata fields intact. -/
def mapCiphertexts (f : SessionRecord → Ciphertext) (v : VaultState) : VaultState :=
  { v with records := v.records.map (fun r => { r with ciphertext := f r }) }

/-- Modelled from the spec (section 3, AgentIdentity). -/
structure AgentIdentity where
  id : Nat
  name : String
  scopes : List String
  createdAt : Nat
deriving DecidableEq

/-- Modelled from the spec (section 4.4, scope matching rule): a domain is
permitted by a scope entry iff it equals the entry exactly, or the entry begins
with the wildcard marker and the domain ends with the remainder. -/
def scopeMatches (scope d : String) : Bool :=
  scope == d ||
    (scope.data.take 1 == ['*'] && List.isSuffixOf (scope.data.drop 1) d.data)

/-- Modelled from the spec (section 4.4): a domain is permitted under an agent's
scopes iff some scope entry matches it. -/
def domainPermitted (scopes : List String) (d : String) : Bool :=
  scopes.any (fun s => scopeMatches s d)

/-- Outcomes recorded in the audit log (spec section 3, AccessLogEntry). -/
inductive Outcome where
  | granted
  | deniedScope
  | deniedExpired
  | deniedNotFound
  | deniedAuth
deriving DecidableEq

/-- Modelled from the spec (section 3): one append-only audit log entry. -/
structure AccessLogEntry where
  agentId : Nat
  domain : String
  timestamp : Nat
  outcome : Outcome
deriving DecidableEq

deriving instance DecidableEq for Except

/-- The full observable result of one AccessController.get_session invocation:
the returned value or error, the vault-touching events performed, and the audit
log entry written (none for the NotInitialized precondition failure, which the
spec reports before the audited steps begin). -/
structure AccessResult where
  result : Except CoreError CookieMap
  events : List Event
  log : Option AccessLogEntry
deriving DecidableEq

/-- Modelled from the spec (section 4.5, AccessController.get_session): evaluate
scope first and fail with ScopeError without touching the vault when the domain is
not permitted; otherwise unlock, then fetch, recording the audit outcome exactly
once after the outcome is determined. -/
def getSession (agent : AgentIdentity) (domain password : String)
    (now : Nat) (v : VaultState) : AccessResult :=
  if domainPermitted agent.scopes domain then
    match unlockEv password v with
    | (.error CoreError.vaultAuthentication, evs) =>
      { result := .error .vaultAuthentication
        events := .scopeCheck :: evs ++ [.auditWrite]
        log := some { agentId := agent.id, domain := domain
                      timestamp := now, outcome := .deniedAuth } }
    | (.error e, evs) =>
      { result := .error e, events := .scopeCheck :: evs, log := none }
    | (.ok k, evs) =>
      match fetchEv k domain now v with
      | (.error CoreError.sessionNotFound, evs2) =>
        { result := .error .sessionNotFound
          events := .scopeCheck :: evs ++ evs2 ++ [.auditWrite]
          log := some { agentId := agent.id, domain := domain
                        timestamp := now, outcome := .deniedNotFound } }
      | (.error CoreError.sessionExpired, evs2) =>
        { result := .error .sessionExpired
          events := .scopeCheck :: evs ++ evs2 ++ [.auditWrite]
          log := some { agentId := agent.id, domain := domain
                        timestamp := now, outcome := .deniedExpired } }
      | (.error e, evs2) =>
        { result := .error e, events := .scopeCheck :: evs ++ evs2, log := none }
      | (.ok m, evs2) =>
        { result := .ok m
          events := .scopeCheck :: evs ++ evs2 ++ [.auditWrite]
          log := some { agentId := agent.id, domain := domain
                        timestamp := now, outcome := .granted } }
  else
    { result := .error .agentScope
      events := [.scopeCheck, .auditWrite]
      log := some { agentId := agent.id, domain := domain
                    timestamp := now, outcome := .deniedScope } }

/-- Modelled from the spec (section 9) and the example call sites: the runtime
Vault object of agent_auth.vault holds the persisted state plus the ambient
unlocked key set by Vault.unlock (none while locked). -/
structure VaultRuntime where
  state : VaultState
  unlockedKey : Option Key
deriving DecidableEq

/-- Modelled from the spec: Vault.unlock(password) as used by the examples —
on success the derived key becomes the runtime's ambient unlocked key. -/
def vaultUnlock (password : String) (vr : VaultRuntime) :
    Except CoreError VaultRuntime × List Event :=
  match unlockEv password vr.state with
  | (.ok k, evs) => (.ok { vr with unlockedKey := some k }, evs)
  | (.error e, evs) => (.error e, evs)

/-- The dynamic shape of the value Vault.get_session hands to callers: either the
flat cookie mapping itself, or an object carrying the mapping in a cookies
attribute (the variant the examples' hasattr checks guard against). -/
inductive SessionValue where
  | mapping (m : CookieMap)
  | withCookies (m : CookieMap)
deriving DecidableEq

/-- Embedded from src/examples/github_agent.py (lines 62-66) and
src/examples/browser-use/github_browser_agent.py (lines 23-26): the hasattr
discrimination — take the cookies attribute when present, else the value itself. -/
def extractCookies : SessionValue → CookieMap
  | .withCookies m => m
  | .mapping m => m

/-- Modelled from the spec (sections 4.3 and 9, with the signature taken from the
example call sites): Vault.get_session(domain) fetches and decrypts the stored
session under the ambient unlocked key, with no agent parameter and hence no
scope check; per the spec's result-type rule it returns the flat mapping shape. -/
def vaultGetSession (vr : VaultRuntime) (domain : String) (now : Nat) :
    Except CoreError SessionValue × List Event :=
  match vr.unlockedKey with
  | none => (.error .vaultLocked, [])
  | some k =>
    match fetchEv k domain now vr.state with
    | (.error e, evs) => (.error e, evs)
    | (.ok m, evs) => (.ok (.mapping m), evs)

/-- Embedded from src/examples/github_agent.py main (lines 42-66): unlock the
vault with the entered password, call vault.get_session for github.com, and
extract the cookie mapping with the hasattr discrimination.  This is an external
read of decrypted credentials that does not go through AccessController. -/
def githubAgentRead (password : String) (vr : VaultRuntime) (now : Nat) :
    Except CoreError CookieMap × List Event :=
  match vaultUnlock password vr with
  | (.error e, evs) => (.error e, evs)
  | (.ok vr2, evs) =>
    match vaultGetSession vr2 "github.com" now with
    | (.error e, evs2) => (.error e, evs ++ evs2)
    | (.ok sv, evs2) => (.ok (extractCookies sv), evs ++ evs2)

/-- A cookie in the shape handed to Playwright by the browser-use example. -/
structure PlaywrightCookie where
  name : String
  value : String
  domain : String
  path : String
deriving DecidableEq

/-- Embedded from src/examples/browser-use/github_browser_agent.py (lines 29-34):
strip one layer of surrounding plain quotes, then one layer of surrounding
escaped quotes, from a cookie value (two sequential conditionals). -/
def cleanValue (v : String) : String :=
  let d := v.data
  let d1 := if ['\"'].isPrefixOf d && List.isSuffixOf ['\"'] d
            then (d.drop 1).dropLast else d
  let d2 := if ['\\', '\"'].isPrefixOf d1 && List.isSuffixOf ['\\', '\"'] d1
            then ((d1.drop 2).dropLast).dropLast else d1
  ⟨d2⟩

/-- Embedded from src/examples/browser-use/github_browser_agent.py
get_cookies_for_playwright (lines 17-44): read the session from the vault with no
agent identity in play, extract the mapping via the hasattr discrimination, and
convert each pair to a Playwright cookie for the github.com domain. -/
def getCookiesForPlaywright (vr : VaultRuntime) (domain : String) (now : Nat) :
    Except CoreError (List PlaywrightCookie) × List Event :=
  match vaultGetSession vr domain now with
  | (.error e, evs) => (.error e, evs)
  | (.ok sv, evs) =>
    let raw := extractCookies sv
    (.ok (raw.map (fun p =>
       { name := p.1, value := cleanValue p.2
         domain := ".github.com", path := "/" })), evs)

/-- A parsed JSON value, as produced by json.loads at the CLI boundary. -/
inductive Json where
  | null
  | bool (b : Bool)
  | num (n : Int)
  | str (s : String)
  | arr (xs : List Json)
  | obj (fields : List (String × Json))

/-- Embedded from src/agent_auth/cli.py add (lines 114-123): the boundary
validation of the cookies payload accepts exactly JSON objects (Python dicts) and
rejects everything else; it never inspects the values. -/
def cookiesAccepted : Json → Bool
  | .obj _ => true
  | _ => false

/-- True iff a JSON value is a flat object whose values are all strings — the
shape the spec says is the only one accepted for encryption. -/
def isFlatStringMap : Json → Bool
  | .obj fields => fields.all (fun f =>
      match f.2 with
      | .str _ => true
      | _ => false)
  | _ => false

/-- Embedded from src/agent_auth/cli.py add (lines 112-139): when the payload
passes the boundary validation it is handed to vault.store_session verbatim
(no coercion); otherwise the command exits without storing. -/
def cliAddPayload (j : Json) : Option Json :=
  if cookiesAccepted j then some j else none

/-- A human-readable name for each error kind, as carried by the Python exception
class of that kind (an unhandled exception's traceback prints this name). -/
def errKindName : CoreError → String
  | .vaultNotInitialized => "VaultNotInitializedError"
  | .vaultAuthentication => "VaultAuthenticationError"
  | .vaultIntegrity => "VaultIntegrityError"
  | .sessionNotFound => "SessionNotFoundError"
  | .sessionExpired => "SessionExpiredError"
  | .agentNotFound => "AgentNotFoundError"
  | .duplicateAgentName => "DuplicateAgentNameError"
  | .agentScope => "AgentScopeError"
  | .vaultAlreadyInitialized => "VaultAlreadyInitializedError"
  | .vaultLocked => "VaultLockedError"
  | .invalidExpiry => "InvalidExpiryError"

/-- Embedded from src/agent_auth/cli.py test_session (lines 285-320): the message
prefix and exit status the CLI produces for each error kind reaching the command.
SessionNotFound, SessionExpired and AgentScope have dedicated except clauses;
AgentNotFound is handled when loading the agent; VaultNotInitialized is reported
by the precondition check; any other kind escapes the handlers and surfaces as a
Python traceback naming its exception class, with the interpreter exiting 1. -/
def testSessionErrorReport : CoreError → String × Nat
  | .sessionNotFound => ("Session not found:", 1)
  | .sessionExpired => ("Session expired:", 1)
  | .agentScope => ("Scope error:", 1)
  | .agentNotFound => ("Agent not found!", 1)
  | .vaultNotInitialized => ("Vault is not initialized. Run agent-auth init first.", 1)
  | e => ("Traceback: " ++ errKindName e, 1)

/-- The observable outcome of one run of the CLI init command: process exit code,
whether the user was prompted for a master password, whether Vault.initialize was
invoked, and the resulting vault state. -/
structure InitOutcome where
  exitCode : Nat
  promptedForPassword : Bool
  initCalled : Bool
  finalState : VaultState
deriving DecidableEq

/-- Embedded from src/agent_auth/cli.py init (lines 53-84): if the vault is
already initialized, report and exit 0 without prompting; otherwise prompt for
password and confirmation, exit 1 when they differ, exit 1 when the password is
shorter than 8 characters, and only then invoke Vault.initialize (exit 1 when it
raises a VaultError, exit 0 on success). -/
def cliInit (v : VaultState) (password passwordConfirm : String) (salt : Nat) :
    InitOutcome :=
  if isInitialized v then
    { exitCode := 0, promptedForPassword := false, initCalled := false
      finalState := v }
  else if password ≠ passwordConfirm then
    { exitCode := 1, promptedForPassword := true, initCalled := false
      finalState := v }
  else if password.length < 8 then
    { exitCode := 1, promptedForPassword := true, initCalled := false
      finalState := v }
  else
    match initVault password salt v with
    | .ok v2 =>
      { exitCode := 0, promptedForPassword := true, initCalled := true
        finalState := v2 }
    | .error _ =>
      { exitCode := 1, promptedForPassword := true, initCalled := true
        finalState := v }

/-- A concrete derived key used to exercise the theorems on explicit inputs. -/
def demoKey : Key := deriveKey "hunter2secret" 7

/-- A concrete flat cookie mapping. -/
def demoCookies : CookieMap := [("session_id", "abc123")]

/-- A concrete stored session record for github.com, expiring at time 1000. -/
def demoRecord : SessionRecord :=
  { domain := "github.com", ciphertext := encrypt demoKey 1 demoCookies
    nonce := 1, createdAt := 100, expiresAt := 1000 }

/-- A concrete initialized vault holding the github.com record. -/
def demoVault : VaultState :=
  { meta := some { salt := 7, verifier := demoKey, initializedFlag := true }
    records := [demoRecord] }

/-- A concrete agent identity scoped to github.com only. -/
def demoAgent : AgentIdentity :=
  { id := 1, name := "github-agent", scopes := ["github.com"], createdAt := 50 }

/-- The runtime Vault object over the demo vault, still locked. -/
def demoRuntime : VaultRuntime := { state := demoVault, unlockedKey := none }

/-- C10: when the vault is already initialized, the CLI init command exits with
status 0 without prompting for any password, Vault.initialize is not called, and
the vault state is left unchanged. -/
theorem c10_init_noop_when_initialized :
    ∀ (v : VaultState) (p c : String) (salt : Nat),
      isInitialized v = true →
      cliInit v p c salt =
        { exitCode := 0, promptedForPassword := false, initCalled := false
          finalState := v } := by
  intro v p c salt h
  simp [cliInit, h]

/-- Witness: running init against the concrete initialized demo vault exits 0,
prompts for nothing, calls nothing, and leaves the vault as it was. -/
theorem c10_init_noop_when_initialized_witness :
    cliInit demoVault "x" "y" 0 =
      { exitCode := 0, promptedForPassword := false, initCalled := false
        finalState := demoVault } :=
  c10_init_noop_when_initialized demoVault "x" "y" 0 (by decide)

/-- C9: the CLI init command invokes Vault.initialize only when the entered
password equals its confirmation and has at least 8 characters; every pair
violating either condition exits with status 1, never invokes Vault.initialize,
and creates no vault. -/
theorem c9_init_password_gate :
    ∀ (v : VaultState) (p c : String) (salt : Nat),
      ((cliInit v p c salt).initCalled = true → p = c ∧ 8 ≤ p.length) ∧
      (isInitialized v = false → (p ≠ c ∨ p.length < 8) →
        (cliInit v p c salt).exitCode = 1 ∧
        (cliInit v p c salt).initCalled = false ∧
        (cliInit v p c salt).finalState = v) := by
  intro v p c salt
  constructor
  · intro h
    by_cases h1 : isInitialized v = true
    · simp [cliInit, h1] at h
    · by_cases h2 : p = c
      · subst h2
        by_cases h3 : p.length < 8
        · simp [cliInit, h1, h3] at h
        · exact ⟨rfl, Nat.le_of_not_lt h3⟩
      · simp [cliInit, h1, h2] at h
  · intro h1 h2
    have h1' : ¬ isInitialized v = true := by simp [h1]
    rcases h2 with h2 | h2
    · simp [cliInit, h1', h2]
    · by_cases h3 : p = c
      · subst h3
        simp [cliInit, h1', h2]
      · simp [cliInit, h1', h3]

/-- Witness: a mismatched pair and a too-short matching pair both exit 1 against
an uninitialized vault without ever calling Vault.initialize. -/
theorem c9_init_password_gate_witness :
    ((cliInit { meta := none, records := [] } "longenough1" "longenough2" 0).exitCode = 1 ∧
     (cliInit { meta := none, records := [] } "longenough1" "longenough2" 0).initCalled = false ∧
     (cliInit { meta := none, records := [] } "longenough1" "longenough2" 0).finalState =
       { meta := none, records := [] }) ∧
    ((cliInit { meta := none, records := [] } "short" "short" 0).exitCode = 1 ∧
     (cliInit { meta := none, records := [] } "short" "short" 0).initCalled = false ∧
     (cliInit { meta := none, records := [] } "short" "short" 0).finalState =
       { meta := none, records := [] }) :=
  ⟨(c9_init_password_gate { meta := none, records := [] } "longenough1" "longenough2" 0).2
     (by decide) (Or.inl (by decide)),
   (c9_init_password_gate { meta := none, records := [] } "short" "short" 0).2
     (by decide) (Or.inr (by decide))⟩

/-- C6 counterexample: a JSON object with a non-string value passes the CLI
boundary validation unchanged (it is not a flat string-to-string mapping, yet it
is accepted and handed on verbatim, never rejected before encryption). -/
theorem c6_counterexample_nonstring_value_accepted :
    cookiesAccepted (Json.obj [("a", Json.num 1)]) = true ∧
    isFlatStringMap (Json.obj [("a", Json.num 1)]) = false ∧
    cliAddPayload (Json.obj [("a", Json.num 1)]) = some (Json.obj [("a", Json.num 1)]) :=
  ⟨rfl, rfl, rfl⟩

/-- C6 amended: the CLI boundary validation accepts exactly the JSON objects
(dicts) — any dict, including ones with non-string or nested values, is accepted
and passed on to encryption unmodified; only non-dict payloads are rejected with
a validation error before reaching encryption. -/
theorem c6_amended_dict_only_validation :
    (∀ fields, cliAddPayload (Json.obj fields) = some (Json.obj fields)) ∧
    (∀ j, cookiesAccepted j = true → ∃ fields, j = Json.obj fields) ∧
    (∀ j, cookiesAccepted j = false → cliAddPayload j = none) := by
  refine ⟨fun fields => rfl, ?_, ?_⟩
  · intro j h
    cases j with
    | obj fields => exact ⟨fields, rfl⟩
    | _ => simp [cookiesAccepted] at h
  · intro j h
    simp [cliAddPayload, h]

/-- Witness: a flat string-valued dict is accepted verbatim and a bare JSON
string is rejected. -/
theorem c6_amended_dict_only_validation_witness :
    cliAddPayload (Json.obj [("a", Json.str "b")]) = some (Json.obj [("a", Json.str "b")]) ∧
    cliAddPayload (Json.str "x") = none :=
  ⟨c6_amended_dict_only_validation.1 [("a", Json.str "b")],
   c6_amended_dict_only_validation.2.2 (Json.str "x") rfl⟩

/-- C2: for a domain outside the agent's scopes, get_session fails with
ScopeError and writes a denied-scope audit entry without attempting any vault
unlock, key derivation, or decryption — for every password, including wrong
ones, so the failure is ScopeError and never AuthenticationError. -/
theorem c2_scope_short_circuit :
    ∀ (agent : AgentIdentity) (d password : String) (now : Nat) (v : VaultState),
      domainPermitted agent.scopes d = false →
      getSession agent d password now v =
        { result := .error .agentScope
          events := [.scopeCheck, .auditWrite]
          log := some { agentId := agent.id, domain := d, timestamp := now
                        outcome := .deniedScope } } ∧
      Event.unlockAttempt ∉ (getSession agent d password now v).events ∧
      Event.keyDerivation ∉ (getSession agent d password now v).events ∧
      Event.decryptAttempt ∉ (getSession agent d password now v).events := by
  intro agent d password now v h
  have hg : getSession agent d password now v =
      { result := .error .agentScope
        events := [.scopeCheck, .auditWrite]
        log := some { agentId := agent.id, domain := d, timestamp := now
                      outcome := .deniedScope } } := by
    simp [getSession, h]
  have he : (getSession agent d password now v).events =
      [Event.scopeCheck, Event.auditWrite] := by rw [hg]
  refine ⟨hg, ?_, ?_, ?_⟩ <;> rw [he] <;> decide

/-- Witness: an agent scoped to linkedin.com asking for twitter.com with a
deliberately wrong password still gets ScopeError, with no unlock attempted. -/
theorem c2_scope_short_circuit_witness :
    getSession { id := 2, name := "bot", scopes := ["linkedin.com"], createdAt := 0 }
        "twitter.com" "totally-wrong" 200 demoVault =
      { result := .error .agentScope
        events := [.scopeCheck, .auditWrite]
        log := some { agentId := 2, domain := "twitter.com", timestamp := 200
                      outcome := .deniedScope } } :=
  (c2_scope_short_circuit { id := 2, name := "bot", scopes := ["linkedin.com"], createdAt := 0 }
      "twitter.com" "totally-wrong" 200 demoVault (by decide)).1

/-- C3: storing a flat cookie mapping for a domain with a strictly future expiry
and fetching that domain before the expiry has passed returns exactly the stored
mapping. -/
theorem c3_store_fetch_round_trip :
    ∀ (k : Key) (d : String) (m : CookieMap) (nonce now expiresAt : Nat)
      (v v2 : VaultState) (now2 : Nat),
      store k d m nonce now expiresAt v = .ok v2 →
      now2 < expiresAt →
      fetch k d now2 v2 = .ok m := by
  intro k d m nonce now expiresAt v v2 now2 hstore hnow
  unfold store at hstore
  split at hstore
  · exact absurd hstore (by simp)
  · injection hstore with h
    subst h
    simp [fetch, fetchEv, put, findRecord, decrypt, encrypt, Nat.not_le.mpr hnow]

/-- Witness: a concrete round trip — store the demo cookies for GitHub.com at
time 100 with expiry 1000, fetch at time 500, and get the mapping back. -/
theorem c3_store_fetch_round_trip_witness :
    fetch demoKey "GitHub.com" 500
      (put demoKey "GitHub.com" demoCookies 2 100 1000 { meta := none, records := [] }) =
      .ok demoCookies :=
  c3_store_fetch_round_trip demoKey "GitHub.com" demoCookies 2 100 1000
    { meta := none, records := [] } _ 500 rfl (by decide)

/-- C4: store rejects every expiry that is not strictly in the future (equal to
now included), and fetching a stored record at or after its expiry fails with
SessionExpired instead of returning the cookies. -/
theorem c4_store_expiry_policy :
    ∀ (k : Key) (d : String) (m : CookieMap) (nonce now expiresAt : Nat) (v : VaultState),
      (expiresAt ≤ now →
        store k d m nonce now expiresAt v = .error .invalidExpiry) ∧
      (∀ (v2 : VaultState) (now2 : Nat),
        store k d m nonce now expiresAt v = .ok v2 →
        expiresAt ≤ now2 →
        fetch k d now2 v2 = .error .sessionExpired) := by
  intro k d m nonce now expiresAt v
  constructor
  · intro h
    simp [store, h]
  · intro v2 now2 hstore hexp
    unfold store at hstore
    split at hstore
    · exact absurd hstore (by simp)
    · injection hstore with h
      subst h
      simp [fetch, fetchEv, put, findRecord, decrypt, encrypt, hexp]

/-- Witness: storing with expiry equal to now is rejected, and a session stored
with expiry 1000 fetched at time 1000 fails with SessionExpired. -/
theorem c4_store_expiry_policy_witness :
    store demoKey "github.com" demoCookies 2 100 100 { meta := none, records := [] } =
      .error .invalidExpiry ∧
    fetch demoKey "github.com" 1000
      (put demoKey "github.com" demoCookies 2 100 1000 { meta := none, records := [] }) =
      .error .sessionExpired :=
  ⟨(c4_store_expiry_policy demoKey "github.com" demoCookies 2 100 100
      { meta := none, records := [] }).1 (by decide),
   (c4_store_expiry_policy demoKey "github.com" demoCookies 2 100 1000
      { meta := none, records := [] }).2 _ 1000 rfl (by decide)⟩

/-- C5: listing is independent of the vault metadata (so it needs no key and no
prior unlock), its result is unchanged when any or all ciphertext blobs are
replaced by arbitrary corrupted ones (so it never decrypts payloads), and after a
put it reports exactly the stored domain, creation time and expiry. -/
theorem c5_listing_needs_no_key_and_never_decrypts :
    (∀ (v : VaultState) (meta2 : Option VaultMetadata),
       listSessions { meta := meta2, records := v.records } = listSessions v) ∧
    (∀ (v : VaultState) (f : SessionRecord → Ciphertext),
       listSessions (mapCiphertexts f v) = listSessions v) ∧
    (∀ (k : Key) (d : String) (m : CookieMap) (nonce now expiresAt : Nat) (v : VaultState),
       listSessions (put k d m nonce now expiresAt v) =
         { domain := normalizeDomain d, createdAt := now, expiresAt := expiresAt } ::
           listSessions { meta := v.meta
                          records := v.records.filter
                            (fun s => s.domain != normalizeDomain d) }) := by
  refine ⟨fun v meta2 => rfl, ?_, fun k d m nonce now expiresAt v => rfl⟩
  intro v f
  unfold listSessions mapCiphertexts
  rw [List.map_map]
  rfl

/-- C1 counterexample: the github_agent example reads the decrypted github.com
cookies straight from the vault — unlock followed by Vault.get_session — and no
scope-authorization check occurs anywhere on that path, so decrypted cookie data
is returned to a caller outside the core without a scope check. -/
theorem c1_counterexample_example_bypasses_controller :
    (githubAgentRead "hunter2secret" demoRuntime 200).1 = .ok demoCookies ∧
    Event.scopeCheck ∉ (githubAgentRead "hunter2secret" demoRuntime 200).2 := by
  constructor
  · rfl
  · decide

/-- C1 amended: reads that do go through AccessController.get_session are always
preceded by a scope-authorization check — a granted result implies the domain was
permitted under the agent's scopes and the scope check came first — but the
example integrations bypass the controller via Vault.get_session. -/
theorem c1_amended_controller_checks_scope_before_disclosure :
    ∀ (agent : AgentIdentity) (d password : String) (now : Nat) (v : VaultState)
      (m : CookieMap),
      (getSession agent d password now v).result = .ok m →
      domainPermitted agent.scopes d = true ∧
      (getSession agent d password now v).events.head? = some Event.scopeCheck := by
  intro agent d password now v m h
  cases hp : domainPermitted agent.scopes d with
  | false => simp [getSession, hp] at h
  | true =>
    refine ⟨rfl, ?_⟩
    unfold getSession
    simp only [hp, if_true]
    rcases h1 : unlockEv password v with ⟨r1, evs1⟩
    cases r1 with
    | error e => cases e <;> simp
    | ok k =>
      rcases h2 : fetchEv k d now v with ⟨r2, evs2⟩
      cases r2 with
      | error e => cases e <;> simp [h2]
      | ok m2 => simp [h2]

/-- Witness: a granted controller read on the demo vault — the scope was
permitted and the scope check is the first event of the invocation. -/
theorem c1_amended_controller_checks_scope_before_disclosure_witness :
    domainPermitted demoAgent.scopes "github.com" = true ∧
    (getSession demoAgent "github.com" "hunter2secret" 200 demoVault).events.head? =
      some Event.scopeCheck :=
  c1_amended_controller_checks_scope_before_disclosure demoAgent "github.com"
    "hunter2secret" 200 demoVault demoCookies (by decide)

deriving instance Fintype for CoreError

/-- C7: error kinds are never downgraded on the way to the caller — an expired
record yields SessionExpired (never SessionNotFound), a missing record yields
SessionNotFound, and AccessController.get_session propagates unlock and fetch
failures with their exact kind — and the CLI test-session front end maps each
kind to a distinct message with a non-zero exit status. -/
theorem c7_error_kinds_preserved_and_distinct :
    (∀ (k : Key) (d : String) (now : Nat) (v : VaultState) (r : SessionRecord)
       (m : CookieMap),
       findRecord d v.records = some r →
       decrypt k r.ciphertext = some m →
       r.expiresAt ≤ now →
       fetch k d now v = .error .sessionExpired) ∧
    (∀ (k : Key) (d : String) (now : Nat) (v : VaultState),
       findRecord d v.records = none →
       fetch k d now v = .error .sessionNotFound) ∧
    (∀ (agent : AgentIdentity) (d password : String) (now : Nat) (v : VaultState)
       (e : CoreError),
       domainPermitted agent.scopes d = true →
       (unlockEv password v).1 = .error e →
       (getSession agent d password now v).result = .error e) ∧
    (∀ (agent : AgentIdentity) (d password : String) (now : Nat) (v : VaultState)
       (k : Key) (evs : List Event) (e : CoreError),
       domainPermitted agent.scopes d = true →
       unlockEv password v = (.ok k, evs) →
       (fetchEv k d now v).1 = .error e →
       (getSession agent d password now v).result = .error e) ∧
    (∀ e1 e2 : CoreError,
       testSessionErrorReport e1 = testSessionErrorReport e2 → e1 = e2) ∧
    (∀ e : CoreError, (testSessionErrorReport e).2 ≠ 0) := by
  refine ⟨?_, ?_, ?_, ?_, by decide, by decide⟩
  · intro k d now v r m h1 h2 h3
    simp [fetch, fetchEv, h1, h2, h3]
  · intro k d now v h1
    simp [fetch, fetchEv, h1]
  · intro agent d password now v e hp h1
    rcases he : unlockEv password v with ⟨r1, evs1⟩
    rw [he] at h1
    simp at h1
    subst h1
    unfold getSession
    simp only [hp, if_true]
    cases e <;> simp [he]
  · intro agent d password now v k evs e hp h1 h2
    rcases hf : fetchEv k d now v with ⟨r2, evs2⟩
    rw [hf] at h2
    simp at h2
    subst h2
    unfold getSession
    simp only [hp, if_true]
    cases e <;> simp [h1, hf]

/-- Witness: on the demo vault, an expired fetch reports SessionExpired, a
missing domain reports SessionNotFound, a wrong password surfaces as
VaultAuthenticationError through the controller, an expired session surfaces as
SessionExpired through the controller, and the CLI exit status for
SessionExpired is non-zero. -/
theorem c7_error_kinds_preserved_and_distinct_witness :
    fetch demoKey "github.com" 2000 demoVault = .error .sessionExpired ∧
    fetch demoKey "nosuch.com" 200 demoVault = .error .sessionNotFound ∧
    (getSession demoAgent "github.com" "wrong-password" 200 demoVault).result =
      .error .vaultAuthentication ∧
    (getSession demoAgent "github.com" "hunter2secret" 2000 demoVault).result =
      .error .sessionExpired ∧
    (testSessionErrorReport .sessionExpired).2 ≠ 0 :=
  ⟨c7_error_kinds_preserved_and_distinct.1 demoKey "github.com" 2000 demoVault
     demoRecord demoCookies (by decide) (by decide) (by decide),
   (c7_error_kinds_preserved_and_distinct.2.1 demoKey "nosuch.com" 200 demoVault
     (by decide)),
   (c7_error_kinds_preserved_and_distinct.2.2.1 demoAgent "github.com"
     "wrong-password" 200 demoVault .vaultAuthentication (by decide) (by decide)),
   (c7_error_kinds_preserved_and_distinct.2.2.2.1 demoAgent "github.com"
     "hunter2secret" 2000 demoVault demoKey [.unlockAttempt, .keyDerivation]
     .sessionExpired (by decide) (by decide) (by decide)),
   c7_error_kinds_preserved_and_distinct.2.2.2.2.2 .sessionExpired⟩

/-- C8: Vault.get_session always hands callers the flat cookie mapping itself,
never an object carrying a cookies attribute — so the examples' hasattr-based
extraction is the identity on it — and in particular a stored mapping comes back
exactly as the mapping. -/
theorem c8_result_is_flat_mapping :
    (∀ (vr : VaultRuntime) (d : String) (now : Nat) (sv : SessionValue)
       (evs : List Event),
       vaultGetSession vr d now = (.ok sv, evs) →
       ∃ m, sv = SessionValue.mapping m ∧ extractCookies sv = m) ∧
    (∀ (k : Key) (d : String) (m : CookieMap) (nonce now expiresAt now2 : Nat)
       (v : VaultState),
       now2 < expiresAt →
       vaultGetSession { state := put k d m nonce now expiresAt v, unlockedKey := some k }
           d now2 =
         (.ok (.mapping m), [.fetchAttempt, .decryptAttempt])) := by
  constructor
  · intro vr d now sv evs h
    rcases hk : vr.unlockedKey with _ | k
    · simp [vaultGetSession, hk] at h
    · rcases hf : fetchEv k d now vr.state with ⟨r2, evs2⟩
      cases r2 with
      | error e => simp [vaultGetSession, hk, hf] at h
      | ok m2 =>
        simp [vaultGetSession, hk, hf] at h
        exact ⟨m2, h.1.symm, by rw [← h.1]; rfl⟩
  · intro k d m nonce now expiresAt now2 v hnow
    simp [vaultGetSession, fetchEv, put, findRecord, decrypt, encrypt,
      Nat.not_le.mpr hnow]

/-- Witness: reading the demo github.com session from the unlocked vault yields
the mapping shape carrying exactly the stored cookies, and a freshly stored
mapping comes back as itself. -/
theorem c8_result_is_flat_mapping_witness :
    (∃ m, SessionValue.mapping demoCookies = SessionValue.mapping m ∧
       extractCookies (SessionValue.mapping demoCookies) = m) ∧
    vaultGetSession
        { state := put demoKey "github.com" demoCookies 2 100 1000
            { meta := none, records := [] }
          unlockedKey := some demoKey } "github.com" 500 =
      (.ok (.mapping demoCookies), [.fetchAttempt, .decryptAttempt]) :=
  ⟨c8_result_is_flat_mapping.1 { state := demoVault, unlockedKey := some demoKey }
     "github.com" 200 (SessionValue.mapping demoCookies)
     [.fetchAttempt, .decryptAttempt] (by decide),
   c8_result_is_flat_mapping.2 demoKey "github.com" demoCookies 2 100 1000 500
     { meta := none, records := [] } (by decide)⟩

end AgentAuth
